import Mathlib

/-!
Shallow embedding of `src/main.rs` of the vtop terminal system monitor.

The repository is a single Rust file built on `ratatui` (rendering),
`crossterm` (input events) and `sysinfo` (metrics).  The embedding below
translates the state held in `App`, the key handling of
`App::on_key_event` / `App::handle_crossterm_events`, the formatting and
widget construction of `App::render`, and the loop of `App::run`.

Float values (`f32` cpu usage, `f64` memory after division by `1024.0`)
are modelled as rationals; the concrete values appearing in the theorems
below (0, 100, powers of two divided by 1024) are exactly representable
in the source's binary floating point, so the rational model agrees with
the Rust arithmetic at every evaluated input.  Machine integers (`u64`
memory, pids) are modelled as `Nat`; no operation in the source can
overflow them on the values considered.
-/

/-- One process record as exposed by the metrics provider (`sysinfo`):
`process.pid()`, `process.name()`, `process.cpu_usage()` (`f32`, percent)
and `process.memory()` (`u64`, kilobytes). -/
structure ProcessSample where
  pid : Nat
  name : String
  cpu_percent : ℚ
  memory_kb : Nat
  deriving DecidableEq

/-- The data `App::render` reads from the `sysinfo::System` value:
`global_cpu_usage()`, `used_memory()`, `total_memory()` and
`processes()` in the provider's iteration order.  The Rust side iterates
a `HashMap`'s `values()`; the iteration order is part of the snapshot
here, as a list. -/
structure SystemSnapshot where
  global_cpu_percent : ℚ
  used_memory_kb : Nat
  total_memory_kb : Nat
  processes : List ProcessSample
  deriving DecidableEq

/-- The `crossterm::event::KeyModifiers` bitflags (SHIFT, CONTROL, ALT,
SUPER, HYPER, META), one `Bool` per flag.  A Rust constant pattern such
as `KeyModifiers::CONTROL` matches by equality of the whole flag set. -/
structure KeyModifiers where
  shift : Bool
  control : Bool
  alt : Bool
  superK : Bool
  hyperK : Bool
  metaK : Bool
  deriving DecidableEq

/-- No modifier held. -/
def KeyModifiers.nomod : KeyModifiers := ⟨false, false, false, false, false, false⟩

/-- Exactly the CONTROL flag, the constant `KeyModifiers::CONTROL`. -/
def KeyModifiers.controlOnly : KeyModifiers := ⟨false, true, false, false, false, false⟩

/-- The `crossterm::event::KeyCode` variants the source distinguishes:
`Esc`, `Char(c)`, and the remaining variants, which all fall into the
catch-all arm of `App::on_key_event` and are represented by tagged
constructors. -/
inductive KeyCode where
  | esc : KeyCode
  | char : Char → KeyCode
  | enter : KeyCode
  | backspace : KeyCode
  | tab : KeyCode
  | functionKey : Nat → KeyCode
  | otherKey : Nat → KeyCode
  deriving DecidableEq

/-- The `crossterm::event::KeyEventKind` variants. -/
inductive KeyEventKind where
  | press : KeyEventKind
  | release : KeyEventKind
  | repeatK : KeyEventKind
  deriving DecidableEq

/-- A `crossterm::event::KeyEvent`: code, modifiers and kind. -/
structure KeyEvent where
  code : KeyCode
  modifiers : KeyModifiers
  kind : KeyEventKind
  deriving DecidableEq

/-- The `crossterm::event::Event` sum type: key, mouse, resize, and the
focus/paste variants that reach the `_ => {}` arm. -/
inductive Event where
  | key : KeyEvent → Event
  | mouse : Event
  | resize : Nat → Nat → Event
  | focusGained : Event
  | focusLost : Event
  | paste : String → Event
  deriving DecidableEq

/-- The `App` struct: the `running` lifecycle flag and the `sysinfo`
state read by `render`. -/
structure App where
  running : Bool
  system : SystemSnapshot
  deriving DecidableEq

/-- `App::new`: `running` starts `true`; `system` holds the freshly
refreshed snapshot (`System::new_all()` followed by `refresh_all()`,
modelled as the given snapshot). -/
def App.new (sys : SystemSnapshot) : App := ⟨true, sys⟩

/-- `App::quit`: sets `running` to `false`. -/
def App.quit (a : App) : App := { a with running := false }

/-- `App::on_key_event`: the Rust `match` on `(key.modifiers, key.code)`.
The first arm `(_, KeyCode::Esc | KeyCode::Char('q'))` ignores the
modifiers; the second arm requires the modifier set to equal
`KeyModifiers::CONTROL` with code `Char('c')` or `Char('C')`. -/
def App.on_key_event (a : App) (key : KeyEvent) : App :=
  if key.code = KeyCode.esc ∨ key.code = KeyCode.char 'q' then a.quit
  else if key.modifiers = KeyModifiers.controlOnly ∧
      (key.code = KeyCode.char 'c' ∨ key.code = KeyCode.char 'C') then a.quit
  else a

/-- `App::handle_crossterm_events`: polls up to 100 ms; `none` models a
poll timeout with no event.  A key event is forwarded to `on_key_event`
only when its kind is `Press`; every other event is a no-op. -/
def App.handle_crossterm_events (a : App) (e : Option Event) : App :=
  match e with
  | Option.none => a
  | Option.some (Event.key k) =>
      if k.kind = KeyEventKind.press then a.on_key_event k else a
  | Option.some Event.mouse => a
  | Option.some (Event.resize _ _) => a
  | Option.some _ => a

/-- Round the fraction `n / d` (with `d > 0`) to the nearest integer,
ties to even: the rounding Rust's float `Display` applies to the exact
value when a precision such as `.2` is requested.  `f` is the floor of
the fraction and `r2` is twice the remainder scaled by `d`, so the
comparisons with `d` decide whether the fractional part is below, above
or exactly one half. -/
def roundHalfEvenND (n d : ℤ) : ℤ :=
  let f := Int.fdiv n d
  let r2 := 2 * (n - f * d)
  if r2 < d then f
  else if d < r2 then f + 1
  else if f % 2 = 0 then f else f + 1

/-- Round a rational to the nearest integer, ties to even. -/
def roundHalfEven (q : ℚ) : ℤ := roundHalfEvenND q.num (Int.ofNat q.den)

/-- Two-digit zero padding for the fractional part. -/
def pad2 (n : Nat) : String :=
  if n < 10 then "0" ++ toString n else toString n

/-- The Rust format specifier for a float with two decimal
places: round the magnitude to a whole number of hundredths (ties to
even), print `intpart.fracpart` with the fraction zero-padded to width
2, and prepend the sign.  The hundredths are computed on the numerator
and denominator of the exact rational value. -/
def fmt2 (q : ℚ) : String :=
  let c := (roundHalfEvenND ((q.num.natAbs : ℤ) * 100) (Int.ofNat q.den)).toNat
  let body := toString (c / 100) ++ "." ++ pad2 (c % 100)
  if q.num < 0 then "-" ++ body else body

/-- The `x as f64 / 1024.0` conversion of a kilobyte count, as the
exact rational it denotes. -/
def kbToMb (n : Nat) : ℚ := Rat.divInt (Int.ofNat n) 1024

/-- The summary CPU line built in `App::render`. -/
def cpuLine (s : SystemSnapshot) : String :=
  "CPU Usage: " ++ fmt2 s.global_cpu_percent ++ "%"

/-- The summary memory line built in `App::render`: used and total
kilobytes each divided by `1024.0`. -/
def memLine (s : SystemSnapshot) : String :=
  "Memory Usage: " ++ fmt2 (kbToMb s.used_memory_kb) ++ " / " ++
    fmt2 (kbToMb s.total_memory_kb) ++ " MB"

/-- One table row of `App::render`: the four pre-formatted cells built
for each process. -/
structure DisplayRow where
  pid_text : String
  name_text : String
  cpu_text : String
  memory_text : String
  deriving DecidableEq

/-- The per-process cell construction inside `App::render`'s `map`:
`pid.to_string()`, the (lossily decoded) name, the cpu percentage with
two decimals and a `%`, and the memory in kilobytes divided by `1024.0`
with two decimals and a ` MB` suffix. -/
def formatRow (p : ProcessSample) : DisplayRow :=
  { pid_text := toString p.pid
    name_text := p.name
    cpu_text := fmt2 p.cpu_percent ++ "%"
    memory_text := fmt2 (kbToMb p.memory_kb) ++ " MB" }

/-- The full row sequence of `App::render`: a plain `map` over the
provider's process collection, in iteration order.  The source applies
no sorting anywhere in `render`. -/
def processRows (s : SystemSnapshot) : List DisplayRow :=
  s.processes.map formatRow

/-- `ratatui` layout direction. -/
inductive Direction where
  | vertical : Direction
  | horizontal : Direction
  deriving DecidableEq

/-- The `ratatui` layout constraints the source uses. -/
inductive Constraint where
  | percentage : Nat → Constraint
  | length : Nat → Constraint
  deriving DecidableEq

/-- The widget tree `App::render` hands to the frame: the layout split
parameters, the bordered header paragraph with its two lines, and the
bordered process table with its column constraints, header cells and
rows. -/
structure RenderedFrame where
  direction : Direction
  margin : Nat
  constraints : List Constraint
  topTitle : String
  topBordersAll : Bool
  summaryLines : List String
  bottomTitle : String
  bottomBordersAll : Bool
  columnWidths : List Constraint
  headerCells : List String
  tableRows : List DisplayRow
  deriving DecidableEq

/-- `App::render` as a function from the snapshot read out of
`self.system` to the drawn widget tree. -/
def render (s : SystemSnapshot) : RenderedFrame :=
  { direction := Direction.vertical
    margin := 1
    constraints := [Constraint.percentage 20, Constraint.percentage 80]
    topTitle := "System Info"
    topBordersAll := true
    summaryLines := [cpuLine s, memLine s]
    bottomTitle := "Processes"
    bottomBordersAll := true
    columnWidths := [Constraint.length 10, Constraint.length 30,
      Constraint.length 10, Constraint.length 10]
    headerCells := ["PID", "Name", "CPU", "Memory"]
    tableRows := processRows s }

/-- The environment's contribution to one loop iteration of `App::run`:
the event (if any) the 100 ms poll delivers, and the snapshot
`refresh_all()` installs afterwards. -/
structure LoopInput where
  ev : Option Event
  refreshed : SystemSnapshot

/-- The body of one `App::run` iteration after the draw:
`handle_crossterm_events` then `refresh_all` (the 1 s sleep has no
state effect). -/
def loopIter (a : App) (inp : LoopInput) : App :=
  let a1 := a.handle_crossterm_events inp.ev
  { a1 with system := inp.refreshed }

/-- The `while self.running` loop of `App::run`, driven by a finite
stream of loop inputs: while `running` holds and input remains, draw
the current system (`terminal.draw(|frame| self.render(frame))`), then
run the iteration body.  Returns the final state and the list of frames
drawn, in order. -/
def runLoop : App → List LoopInput → App × List RenderedFrame
  | a, [] => (a, [])
  | a, inp :: rest =>
      if a.running then
        let next := runLoop (loopIter a inp) rest
        (next.1, render a.system :: next.2)
      else (a, [])

/-- `App::run`: sets `running := true`, then enters the loop. -/
def App.run (a : App) (inps : List LoopInput) : App × List RenderedFrame :=
  runLoop { a with running := true } inps

/-- Empty snapshot used as a concrete evaluation point. -/
def snap0 : SystemSnapshot := ⟨0, 0, 0, []⟩

/-- The snapshot of the spec's concrete example: pids 1, 2, 3 carrying
100, 5000 and 2000 kilobytes of memory, in that iteration order. -/
def snap123 : SystemSnapshot :=
  ⟨0, 0, 0, [⟨1, "a", 0, 100⟩, ⟨2, "b", 0, 5000⟩, ⟨3, "c", 0, 2000⟩]⟩

/-- A snapshot whose first process has memory 0 (the value the spec
calls the sentinel) followed by a process with strictly more memory. -/
def snapZeroFirst : SystemSnapshot :=
  ⟨0, 0, 0, [⟨1, "a", 0, 0⟩, ⟨2, "b", 0, 5000⟩]⟩

/-- A loop input delivering a press of plain 'q' and a refreshed
snapshot. -/
def quitInput : LoopInput :=
  ⟨Option.some (Event.key
    ⟨KeyCode.char 'q', KeyModifiers.nomod, KeyEventKind.press⟩), snap123⟩

/-- Input handling either leaves the state untouched or applies
`App::quit`. -/
lemma handle_crossterm_events_cases (a : App) (e : Option Event) :
    a.handle_crossterm_events e = a ∨ a.handle_crossterm_events e = a.quit := by
  cases e with
  | none => exact Or.inl rfl
  | some ev =>
    cases ev with
    | key k =>
      by_cases hk : k.kind = KeyEventKind.press
      · simp only [App.handle_crossterm_events, if_pos hk, App.on_key_event]
        split_ifs <;> simp
      · simp [App.handle_crossterm_events, hk]
    | mouse => exact Or.inl rfl
    | resize w h => exact Or.inl rfl
    | focusGained => exact Or.inl rfl
    | focusLost => exact Or.inl rfl
    | paste s => exact Or.inl rfl

/-- The iteration body does not change `running` beyond what input
handling did. -/
lemma loopIter_running (a : App) (inp : LoopInput) :
    (loopIter a inp).running = (a.handle_crossterm_events inp.ev).running := rfl

/-- A stopped app performs no iteration at all: no draw, no state
change. -/
lemma runLoop_stopped (a : App) (inps : List LoopInput) (h : a.running = false) :
    runLoop a inps = (a, []) := by
  cases inps <;> simp [runLoop, h]

/-- Claim C1 counterexample: on the snapshot with pids 1, 2, 3 and
memory 100, 5000, 2000 kilobytes in that order, the rendered pid column
is not the claimed [2, 3, 1]: `App::render` applies no sort, so the
rows keep the provider's order [1, 2, 3]. -/
theorem c1_counterexample :
    ¬ ((render snap123).tableRows.map DisplayRow.pid_text = ["2", "3", "1"]) := by
  decide

/-- Claim C1 (amended): for every snapshot the transform produces
exactly one DisplayRow per ProcessSample, and the rows keep the
snapshot's process order (the source applies no sorting), so the pid
column equals the pids of the input in input order. -/
theorem c1_rows_one_per_sample (s : SystemSnapshot) :
    (render s).tableRows.length = s.processes.length ∧
      (render s).tableRows.map DisplayRow.pid_text
        = s.processes.map (fun p => toString p.pid) := by
  constructor
  · simp [render, processRows]
  · simp [render, processRows, formatRow]

/-- Claim C2: the transform is deterministic — two snapshots carrying
the same cpu value, the same memory counters and the same process
sequence render to identical output, row order included. -/
theorem c2_render_deterministic (s₁ s₂ : SystemSnapshot)
    (h1 : s₁.global_cpu_percent = s₂.global_cpu_percent)
    (h2 : s₁.used_memory_kb = s₂.used_memory_kb)
    (h3 : s₁.total_memory_kb = s₂.total_memory_kb)
    (h4 : s₁.processes = s₂.processes) :
    render s₁ = render s₂ := by
  cases s₁
  cases s₂
  simp only at h1 h2 h3 h4
  subst h1 h2 h3 h4
  rfl

/-- Claim C2 witness: the determinism theorem applied at the concrete
example snapshot. -/
theorem c2_witness : render snap123 = render snap123 :=
  c2_render_deterministic snap123 snap123 rfl rfl rfl rfl

/-- Claim C3 counterexample: a plain (unmodified) press of 'Q' leaves
`running` at `true`, although the claim lists plain Q among the quit
keys: the first match arm only covers lowercase 'q' and the second
requires the CONTROL modifier. -/
theorem c3_counterexample :
    (App.handle_crossterm_events ⟨true, snap0⟩
        (Option.some (Event.key
          ⟨KeyCode.char 'Q', KeyModifiers.nomod, KeyEventKind.press⟩))).running
      = true := by
  decide

/-- Claim C3 (amended): a key press sets `running` to `false` exactly
when its code is Esc or the character 'q' (under any modifier set), or
its modifier set is exactly CONTROL and its code is 'c' or 'C'.  In
particular plain 'Q' does not quit, while combinations such as Alt+q
do. -/
theorem c3_quit_keys (s : SystemSnapshot) (mods : KeyModifiers) (code : KeyCode) :
    (App.handle_crossterm_events ⟨true, s⟩
        (Option.some (Event.key ⟨code, mods, KeyEventKind.press⟩))).running = false ↔
      (code = KeyCode.esc ∨ code = KeyCode.char 'q' ∨
        (mods = KeyModifiers.controlOnly ∧
          (code = KeyCode.char 'c' ∨ code = KeyCode.char 'C'))) := by
  simp only [App.handle_crossterm_events, App.on_key_event, App.quit]
  split_ifs with h1 h2 <;> simp_all
  tauto

/-- Claim C4 counterexample: the transform performs no sort and no
string re-parsing at all, so a row whose memory value is 0 (the value
the claim designates as the sentinel) is not placed at or after the
validly-valued rows: in `snapZeroFirst` the 0-memory row is rendered
first, before the 5000 kB row. -/
theorem c4_counterexample :
    (render snapZeroFirst).tableRows.map DisplayRow.memory_text
      = ["0.00 MB", "4.88 MB"] := by
  decide

/-- Claim C4 (amended): the transform never parses the memory field —
each row's memory cell is formatted directly from the numeric
`memory_kb` of the corresponding process, in input order — and it is a
total function: every snapshot yields one row per process and no error
can abort the render cycle. -/
theorem c4_memory_numeric_total (s : SystemSnapshot) :
    (render s).tableRows.length = s.processes.length ∧
      (render s).tableRows.map DisplayRow.memory_text
        = s.processes.map (fun p => fmt2 (kbToMb p.memory_kb) ++ " MB") := by
  constructor
  · simp [render, processRows]
  · simp [render, processRows, formatRow]

/-- Claim C5: the two summary lines carry two decimal places; with cpu
0 the line is "CPU Usage: 0.00%", with cpu 100 it is
"CPU Usage: 100.00%", and with 8388608 kB used of 16777216 kB total the
memory line is "Memory Usage: 8192.00 / 16384.00 MB" (kilobytes divided
by 1024). -/
theorem c5_summary_format :
    (render ⟨0, 8388608, 16777216, []⟩).summaryLines
        = ["CPU Usage: 0.00%", "Memory Usage: 8192.00 / 16384.00 MB"] ∧
      (render ⟨100, 8388608, 16777216, []⟩).summaryLines
        = ["CPU Usage: 100.00%", "Memory Usage: 8192.00 / 16384.00 MB"] := by
  constructor <;> decide

/-- Claim C6: a key-release event never changes the state (only
key-press events reach `on_key_event`), and a key-press of plain 'q'
sets `running` to `false`. -/
theorem c6_press_only (a : App) (k : KeyEvent) :
    (k.kind = KeyEventKind.release →
        App.handle_crossterm_events a (Option.some (Event.key k)) = a) ∧
      (∀ s : SystemSnapshot,
        (App.handle_crossterm_events ⟨true, s⟩
            (Option.some (Event.key
              ⟨KeyCode.char 'q', KeyModifiers.nomod, KeyEventKind.press⟩))).running
          = false) := by
  constructor
  · intro hk
    simp [App.handle_crossterm_events, hk]
  · intro s
    simp [App.handle_crossterm_events, App.on_key_event, App.quit]

/-- Claim C6 witness: the theorem applied at a release and a press of
'q' on a concrete running app. -/
theorem c6_witness :
    App.handle_crossterm_events ⟨true, snap0⟩
        (Option.some (Event.key
          ⟨KeyCode.char 'q', KeyModifiers.nomod, KeyEventKind.release⟩))
      = ⟨true, snap0⟩ ∧
      (App.handle_crossterm_events ⟨true, snap0⟩
          (Option.some (Event.key
            ⟨KeyCode.char 'q', KeyModifiers.nomod, KeyEventKind.press⟩))).running
        = false :=
  ⟨(c6_press_only ⟨true, snap0⟩
      ⟨KeyCode.char 'q', KeyModifiers.nomod, KeyEventKind.release⟩).1 rfl,
   (c6_press_only ⟨true, snap0⟩
      ⟨KeyCode.char 'q', KeyModifiers.nomod, KeyEventKind.release⟩).2 snap0⟩

/-- Claim C7: the lifecycle starts in Running (`App::new` sets
`running := true`); the Running→Stopped transition happens only via
the quit signal — an iteration that drops `running` from `true` to
`false` must have polled a key press of Esc or 'q' (any modifiers) or
of exactly-Ctrl 'c'/'C'; no loop operation ever turns `running` back
from `false` to `true`; and a stopped app performs no further loop
work at all: Stopped is terminal for the program's execution. -/
theorem c7_stopped_terminal :
    (∀ s : SystemSnapshot, (App.new s).running = true) ∧
      (∀ (a : App) (inp : LoopInput),
        a.running = true → (loopIter a inp).running = false →
        ∃ k : KeyEvent, inp.ev = Option.some (Event.key k) ∧
          k.kind = KeyEventKind.press ∧
          (k.code = KeyCode.esc ∨ k.code = KeyCode.char 'q' ∨
            (k.modifiers = KeyModifiers.controlOnly ∧
              (k.code = KeyCode.char 'c' ∨ k.code = KeyCode.char 'C')))) ∧
      (∀ (a : App) (inp : LoopInput),
        (loopIter a inp).running = true → a.running = true) ∧
      (∀ (a : App) (inps : List LoopInput),
        a.running = false → runLoop a inps = (a, [])) := by
  refine ⟨fun s => rfl, ?_, ?_, fun a inps h => runLoop_stopped a inps h⟩
  · intro a inp ha hdrop
    rw [loopIter_running] at hdrop
    rcases hev : inp.ev with _ | ev
    · rw [hev] at hdrop
      simp only [App.handle_crossterm_events] at hdrop
      simp [ha] at hdrop
    · cases ev with
      | key k =>
        by_cases hk : k.kind = KeyEventKind.press
        · refine ⟨k, rfl, hk, ?_⟩
          rw [hev] at hdrop
          simp only [App.handle_crossterm_events, if_pos hk,
            App.on_key_event] at hdrop
          split_ifs at hdrop with h1 h2
          · tauto
          · tauto
          · rw [ha] at hdrop
            exact absurd hdrop (by simp)
        · exfalso
          rw [hev] at hdrop
          simp [App.handle_crossterm_events, hk, ha] at hdrop
      | mouse =>
        rw [hev] at hdrop
        simp [App.handle_crossterm_events, ha] at hdrop
      | resize w h =>
        rw [hev] at hdrop
        simp [App.handle_crossterm_events, ha] at hdrop
      | focusGained =>
        rw [hev] at hdrop
        simp [App.handle_crossterm_events, ha] at hdrop
      | focusLost =>
        rw [hev] at hdrop
        simp [App.handle_crossterm_events, ha] at hdrop
      | paste p =>
        rw [hev] at hdrop
        simp [App.handle_crossterm_events, ha] at hdrop
  · intro a inp h
    rw [loopIter_running] at h
    rcases handle_crossterm_events_cases a inp.ev with hc | hc
    · rw [hc] at h
      exact h
    · rw [hc] at h
      simp [App.quit] at h

/-- Claim C7 witness: the theorem applied at concrete states — a fresh
app is running; the iteration that drops `running` on `quitInput`
exhibits its quit-key press; a running app stays running through an
empty poll; and a stopped app performs no iteration on a nonempty
input stream. -/
theorem c7_witness :
    (App.new snap0).running = true ∧
      (∃ k : KeyEvent, quitInput.ev = Option.some (Event.key k) ∧
        k.kind = KeyEventKind.press ∧
        (k.code = KeyCode.esc ∨ k.code = KeyCode.char 'q' ∨
          (k.modifiers = KeyModifiers.controlOnly ∧
            (k.code = KeyCode.char 'c' ∨ k.code = KeyCode.char 'C')))) ∧
      App.running ⟨true, snap0⟩ = true ∧
      runLoop ⟨false, snap0⟩ [⟨Option.none, snap0⟩] = (⟨false, snap0⟩, []) :=
  ⟨c7_stopped_terminal.1 snap0,
   c7_stopped_terminal.2.1 ⟨true, snap0⟩ quitInput rfl (by decide),
   c7_stopped_terminal.2.2.1 ⟨true, snap0⟩ ⟨Option.none, snap0⟩ rfl,
   c7_stopped_terminal.2.2.2 ⟨false, snap0⟩ [⟨Option.none, snap0⟩] rfl⟩

/-- Claim C8: when the quit signal is observed in an iteration, that
iteration completes (input handling and the refresh both apply — the
final state is `loopIter a inp`), the only draw is the one that opened
the iteration, and no further draw occurs no matter how much input
remains. -/
theorem c8_no_draw_after_quit (a : App) (inp : LoopInput) (rest : List LoopInput)
    (hrun : a.running = true)
    (hquit : (a.handle_crossterm_events inp.ev).running = false) :
    runLoop a (inp :: rest) = (loopIter a inp, [render a.system]) := by
  have hstop : (loopIter a inp).running = false := by
    rw [loopIter_running]
    exact hquit
  simp [runLoop, hrun, runLoop_stopped _ rest hstop]

/-- Claim C8 witness: the theorem applied to a running app that
receives 'q' in its first iteration with one more input pending: one
frame is drawn, none after. -/
theorem c8_witness :
    runLoop ⟨true, snap0⟩ [quitInput, ⟨Option.none, snap0⟩]
      = (loopIter ⟨true, snap0⟩ quitInput, [render snap0]) :=
  c8_no_draw_after_quit ⟨true, snap0⟩ quitInput [⟨Option.none, snap0⟩] rfl (by decide)

/-- Claim C9: the rendered frame is a vertical split with a 1-unit
outer margin into 20% and 80% regions; the top is a bordered
"System Info" panel holding the two summary lines, the bottom a
bordered "Processes" panel whose table has column widths 10, 30, 10,
10 and header cells PID, Name, CPU, Memory. -/
theorem c9_layout (s : SystemSnapshot) :
    (render s).direction = Direction.vertical ∧
      (render s).margin = 1 ∧
      (render s).constraints = [Constraint.percentage 20, Constraint.percentage 80] ∧
      (render s).topTitle = "System Info" ∧
      (render s).topBordersAll = true ∧
      (render s).summaryLines = [cpuLine s, memLine s] ∧
      (render s).bottomTitle = "Processes" ∧
      (render s).bottomBordersAll = true ∧
      (render s).columnWidths = [Constraint.length 10, Constraint.length 30,
        Constraint.length 10, Constraint.length 10] ∧
      (render s).headerCells = ["PID", "Name", "CPU", "Memory"] :=
  ⟨rfl, rfl, rfl, rfl, rfl, rfl, rfl, rfl, rfl, rfl⟩

/-- Claim C10: for every polled outcome, input handling leaves the
metrics state `system` unchanged, and `running` either keeps its value
or drops from `true` to `false` — no other field of `App` exists or
changes. -/
theorem c10_frame_condition (a : App) (e : Option Event) :
    (a.handle_crossterm_events e).system = a.system ∧
      ((a.handle_crossterm_events e).running = a.running ∨
        (a.running = true ∧ (a.handle_crossterm_events e).running = false)) := by
  rcases handle_crossterm_events_cases a e with hc | hc <;> rw [hc]
  · exact ⟨rfl, Or.inl rfl⟩
  · refine ⟨rfl, ?_⟩
    cases h : a.running
    · exact Or.inl (by simp [App.quit, h])
    · exact Or.inr ⟨rfl, rfl⟩
